import Mathlib

/-
Verification of the audio upload / transcribe / polish / summarize pipeline
implemented in src/main.py.  The handler `process_audio` writes the upload to
a temporary path, calls a transcription provider, calls a text-generation
provider twice (polish, then summary), and always removes the temporary file
in a finally block.  Provider calls and filesystem effects are modelled
explicitly: an `Env` records the outcome of each external step, and the
filesystem is the list of existing paths.
-/

namespace VoiceTranscriber

/-- Boolean test that the list `pre` is an initial segment of the second list. -/
def listBeginsWith : List Char → List Char → Bool
  | [], _ => true
  | _ :: _, [] => false
  | x :: xs, y :: ys => x == y && listBeginsWith xs ys

/-- String version of `listBeginsWith`: does `s` begin with `pre`. -/
def strBeginsWith (s pre : String) : Bool :=
  listBeginsWith pre.data s.data

/-- POSIX join as performed by the pathlib `/` operator in
`BASE_DIR / "temp" / file.filename` (src/main.py line 86): an absolute
right operand replaces the left operand entirely; otherwise the two are
joined with a slash.  No sanitization of the right operand happens. -/
def pathJoin (base child : String) : String :=
  if strBeginsWith child "/" then child else base ++ "/" ++ child

/-- The scratch directory `BASE_DIR / "temp"` created at startup
(src/main.py line 38). -/
def tempDir (baseDir : String) : String :=
  pathJoin baseDir "temp"

/-- The temporary path `BASE_DIR / "temp" / file.filename` used by
`process_audio` (src/main.py line 86). -/
def tempPath (baseDir filename : String) : String :=
  pathJoin (tempDir baseDir) filename

/-- Split a character list at every occurrence of the character `c`. -/
def splitOnChar (c : Char) : List Char → List (List Char)
  | [] => [[]]
  | x :: xs =>
    match splitOnChar c xs with
    | [] => if x == c then [[], []] else [[x]]
    | y :: ys => if x == c then [] :: y :: ys else (x :: y) :: ys

/-- Resolve `..` and `.` components of a POSIX path, keeping the leading
slash of an absolute path.  Used to decide whether a computed temporary
path actually lies inside the temp directory. -/
def normalizePath (p : String) : String :=
  let comps := (splitOnChar (Char.ofNat 47) p.data).map String.mk
  let resolved := comps.foldl
    (fun acc c =>
      if c = ".." then acc.dropLast
      else if c = "." || c = "" then acc
      else acc ++ [c]) ([] : List String)
  (if strBeginsWith p "/" then "/" else "") ++ String.intercalate "/" resolved

/-- Python str.strip as applied in `response.text.strip()`
(src/main.py line 63): drop whitespace from both ends. -/
def pyStrip (s : String) : String :=
  String.mk (((s.data.dropWhile Char.isWhitespace).reverse.dropWhile Char.isWhitespace).reverse)

/-- An uploaded file: client-supplied filename plus raw bytes. -/
structure Upload where
  filename : String
  content : List Nat
deriving DecidableEq, Repr

/-- The argument record of the speech-to-text call
`groq_client.audio.transcriptions.create(...)` (src/main.py lines 93-99). -/
structure TranscriptionRequest where
  fileName : String
  fileBytes : List Nat
  model : String
  responseFormat : String
  language : String
  temperature : Int
deriving DecidableEq, Repr

/-- Outcome of writing the upload to the temporary path
(src/main.py lines 88-89): success, an exception before the file is
created, or an exception after creation. -/
inductive WriteOutcome where
  | ok
  | failNoCreate (msg : String)
  | failAfterCreate (msg : String)
deriving DecidableEq, Repr

/-- Environment of one request: the outcome of every external effect the
handler performs.  Provider calls are functions from the request made to
an `Except`, where `Except.error` models a raised exception. -/
structure Env where
  writeOut : WriteOutcome
  readOut : Option String
  transcribe : TranscriptionRequest → Except String String
  genPolish : String → Except String String
  genSummary : String → Except String String

/-- The JSON value returned by `process_audio`: either the two-key success
object of src/main.py lines 106-109 or the one-key error object of line 112. -/
inductive Response where
  | success (original_text summary : String)
  | error (msg : String)
deriving DecidableEq, Repr

/-- The set of keys of the returned JSON object. -/
def responseKeys : Response → List String
  | .success _ _ => ["original_text", "summary"]
  | .error _ => ["error"]

/-- The prompt built by `polish_text` (src/main.py lines 57-61). -/
def polishPrompt (text : String) : String :=
  "\n        Fix the punctuation and grammar of this text (keep Hinglish as is, just fix signs like \x27?\x27 or \x27.\x27):\n        \"" ++ text ++ "\"\n        Return ONLY the corrected text.\n        "

/-- The prompt built by `generate_summary` (src/main.py lines 70-74). -/
def summaryPrompt (text : String) : String :=
  "\n        Analyze this text: \"" ++ text ++ "\"\n        1. Concise English Summary.\n        2. Key Points.\n        "

/-- src/main.py lines 53-65: send the polish prompt to the generation
provider; on success return the reply stripped of surrounding whitespace,
on any exception return the input text unchanged. -/
def polish_text (gen : String → Except String String) (text : String) : String :=
  match gen (polishPrompt text) with
  | .ok reply => pyStrip reply
  | .error _ => text

/-- src/main.py lines 67-78: send the summary prompt to the generation
provider; on success return the reply verbatim, on an exception e return
the string "Error: " followed by str(e). -/
def generate_summary (gen : String → Except String String) (text : String) : String :=
  match gen (summaryPrompt text) with
  | .ok reply => reply
  | .error e => "Error: " ++ e

/-- Create a file: the path now exists (os write via open(..., "wb")). -/
def createFile (fs : List String) (p : String) : List String :=
  if p ∈ fs then fs else p :: fs

/-- os.remove: the path no longer exists. -/
def removeFile (fs : List String) (p : String) : List String :=
  fs.filter (fun q => q != p)

/-- The transcription request issued by `process_audio`
(src/main.py lines 92-99): the temporary path as file name, the file
bytes, and the literal keyword arguments of the call. -/
def transcriptionRequestFor (baseDir : String) (u : Upload) : TranscriptionRequest :=
  { fileName := tempPath baseDir u.filename
    fileBytes := u.content
    model := "whisper-large-v3"
    responseFormat := "json"
    language := "hi"
    temperature := 0 }

/-- src/main.py lines 84-115: write the upload to the temporary path, read
it back, transcribe, polish, summarize; any exception escaping the try
block is converted to the error object; the finally block removes the
temporary file whenever it exists.  Returns the response together with
the filesystem after the handler completes. -/
def process_audio (env : Env) (baseDir : String) (file : Upload) (fs : List String) :
    Response × List String :=
  let temp_filename := tempPath baseDir file.filename
  let step : Response × List String :=
    match env.writeOut with
    | .failNoCreate msg => (.error msg, fs)
    | .failAfterCreate msg => (.error msg, createFile fs temp_filename)
    | .ok =>
      let fs1 := createFile fs temp_filename
      match env.readOut with
      | some msg => (.error msg, fs1)
      | none =>
        match env.transcribe (transcriptionRequestFor baseDir file) with
        | .error msg => (.error msg, fs1)
        | .ok raw_text =>
          let polished_text := polish_text env.genPolish raw_text
          let summary_text := generate_summary env.genSummary polished_text
          (.success polished_text summary_text, fs1)
  (step.1, if temp_filename ∈ step.2 then removeFile step.2 temp_filename else step.2)

/-- Split a character list at the first occurrence of the marker list,
returning the parts before and after the marker. -/
def splitAtMarker (m : List Char) : List Char → Option (List Char × List Char)
  | [] => if m.isEmpty then some ([], []) else none
  | c :: rest =>
    if listBeginsWith m (c :: rest) then some ([], (c :: rest).drop m.length)
    else
      match splitAtMarker m rest with
      | some (pre, post) => some (c :: pre, post)
      | none => none

/-- Modelled from the spec: the parsing step the spec describes for the
provider reply, which is absent from src/main.py.  It locates the literal
start and end marker substrings and extracts exactly the text between
them, returning none when either marker is missing. -/
def specExtractBetween (startMarker endMarker reply : String) : Option String :=
  match splitAtMarker startMarker.data reply.data with
  | none => none
  | some (_, afterStart) =>
    match splitAtMarker endMarker.data afterStart with
    | none => none
    | some (between, _) => some (String.mk between)

/-- Concrete environment in which every external step succeeds: the
transcript is "raw", the polish reply is " polished " and the summary
reply is "sum". -/
def envOkAll : Env :=
  ⟨.ok, none, fun _ => .ok "raw", fun _ => .ok " polished ", fun _ => .ok "sum"⟩

/-- Concrete environment in which transcription succeeds with "raw" but
both generation calls raise. -/
def envGenFail : Env :=
  ⟨.ok, none, fun _ => .ok "raw", fun _ => .error "boom", fun _ => .error "bang"⟩

/-- Concrete environment in which the transcription call raises. -/
def envTransFail : Env :=
  ⟨.ok, none, fun _ => .error "network down", fun _ => .ok "p", fun _ => .ok "s"⟩

/-- Claim C1: for every uploaded file and every outcome of the external
steps, the handler returns either an object with exactly the keys
original_text and summary, or an object with exactly the key error. -/
theorem process_audio_response_shape (env : Env) (b : String) (u : Upload) (fs : List String) :
    responseKeys (process_audio env b u fs).1 = ["original_text", "summary"] ∨
    responseKeys (process_audio env b u fs).1 = ["error"] := by
  cases hw : env.writeOut with
  | failNoCreate m => right; simp [process_audio, hw, responseKeys]
  | failAfterCreate m => right; simp [process_audio, hw, responseKeys]
  | ok =>
    cases hr : env.readOut with
    | some m => right; simp [process_audio, hw, hr, responseKeys]
    | none =>
      cases ht : env.transcribe (transcriptionRequestFor b u) with
      | error m => right; simp [process_audio, hw, hr, ht, responseKeys]
      | ok raw => left; simp [process_audio, hw, hr, ht, responseKeys]

/-- Claim C2, counterexample: a provider reply that contains both the
start marker BEGIN and the end marker END is returned whole by the
parsing step of polish_text, not reduced to the text between the
markers, so the claimed marker extraction does not happen. -/
theorem polish_text_ignores_markers_cex :
    polish_text (fun _ => Except.ok "BEGIN hello END") "orig" = "BEGIN hello END" ∧
    specExtractBetween "BEGIN" "END" "BEGIN hello END" = some " hello " ∧
    "BEGIN hello END" ≠ " hello " := by decide

/-- Claim C2, amended: the handler performs no marker-based extraction;
whenever the generation provider replies successfully, polish_text
returns the whole reply stripped of surrounding whitespace. -/
theorem polish_text_returns_stripped_reply (gen : String → Except String String)
    (text reply : String) (h : gen (polishPrompt text) = .ok reply) :
    polish_text gen text = pyStrip reply := by
  simp [polish_text, h]

/-- Claim C2, witness for the amended statement at the concrete reply
" x ", which strips to "x". -/
theorem polish_text_returns_stripped_reply_witness :
    polish_text (fun _ => Except.ok " x ") "t" = "x" :=
  (polish_text_returns_stripped_reply (fun _ => Except.ok " x ") "t" " x " rfl).trans (by decide)

/-- Claim C3, counterexample: a provider reply without any marker is
returned as is, not replaced by the fallback value (the original text),
so marker absence does not trigger the claimed fallback. -/
theorem polish_text_no_marker_fallback_cex :
    specExtractBetween "BEGIN" "END" "world" = none ∧
    polish_text (fun _ => Except.ok "world") "orig" = "world" ∧
    "world" ≠ "orig" := by decide

/-- Claim C3, amended: fallback values are produced only when the
provider call raises, not when markers are absent: on an exception
polish_text returns the original text unchanged and generate_summary
returns an Error string. -/
theorem fallbacks_only_on_exception (gp gs : String → Except String String)
    (text m1 m2 : String)
    (hp : gp (polishPrompt text) = .error m1)
    (hs : gs (summaryPrompt text) = .error m2) :
    polish_text gp text = text ∧ generate_summary gs text = "Error: " ++ m2 := by
  refine ⟨?_, ?_⟩
  · simp [polish_text, hp]
  · simp [generate_summary, hs]

/-- Claim C3, witness for the amended statement at concrete raising
providers. -/
theorem fallbacks_only_on_exception_witness :
    polish_text (fun _ => Except.error "boom") "orig" = "orig" ∧
    generate_summary (fun _ => Except.error "bang") "orig" = "Error: bang" := by
  have h := fallbacks_only_on_exception (fun _ => Except.error "boom")
    (fun _ => Except.error "bang") "orig" "boom" "bang" rfl rfl
  exact ⟨h.1, h.2.trans (by decide)⟩

/-- Claim C4: after the handler completes, whichever step raised and
whatever the initial filesystem contained, the temporary path of the
request no longer exists. -/
theorem process_audio_removes_temp_file (env : Env) (b : String) (u : Upload) (fs : List String) :
    tempPath b u.filename ∉ (process_audio env b u fs).2 := by
  have key : ∀ (s : List String) (p : String),
      p ∉ (if p ∈ s then removeFile s p else s) := by
    intro s p
    by_cases h : p ∈ s
    · simp [h, removeFile, List.mem_filter]
    · simp [h]
  exact key _ _

/-- Claim C5, counterexample: when the transcription call fails, the
response is the error object, which does not contain the key
original_text. -/
theorem transcription_failure_drops_keys_cex :
    responseKeys (process_audio envTransFail "/srv/app" ⟨"a.mp3", []⟩ []).1 = ["error"] ∧
    "original_text" ∉ responseKeys (process_audio envTransFail "/srv/app" ⟨"a.mp3", []⟩ []).1 := by
  decide

/-- Claim C5, amended: when the transcription call succeeds, the response
contains both expected keys whatever the two generation calls do, failing
included; when the transcription call fails, the response contains only
the key error. -/
theorem response_keys_by_failure_site (env : Env) (b : String) (u : Upload) (fs : List String)
    (hw : env.writeOut = .ok) (hr : env.readOut = none) :
    (∀ raw, env.transcribe (transcriptionRequestFor b u) = .ok raw →
      responseKeys (process_audio env b u fs).1 = ["original_text", "summary"]) ∧
    (∀ m, env.transcribe (transcriptionRequestFor b u) = .error m →
      responseKeys (process_audio env b u fs).1 = ["error"]) := by
  refine ⟨?_, ?_⟩
  · intro raw ht; simp [process_audio, hw, hr, ht, responseKeys]
  · intro m ht; simp [process_audio, hw, hr, ht, responseKeys]

/-- Claim C5, witness for the amended statement: with both generation
calls raising, the response still has both keys. -/
theorem response_keys_by_failure_site_witness :
    responseKeys (process_audio envGenFail "/srv/app" ⟨"a.mp3", [1]⟩ []).1 =
      ["original_text", "summary"] :=
  (response_keys_by_failure_site envGenFail "/srv/app" ⟨"a.mp3", [1]⟩ [] rfl rfl).1 "raw" rfl

/-- Claim C6, counterexample: an exception of the transcription call is
not converted into a best-effort fallback carrying the original text or
an explanatory summary; it becomes the generic error payload. -/
theorem transcription_exception_no_fallback_cex :
    (process_audio envTransFail "/srv/app" ⟨"b.wav", [7]⟩ []).1 =
      Response.error "network down" ∧
    responseKeys (process_audio envTransFail "/srv/app" ⟨"b.wav", [7]⟩ []).1 = ["error"] := by
  decide

/-- Claim C6, amended: every provider exception is caught, but only the
generation calls get best-effort fallbacks: when the polish call raises,
the raw transcript is returned unmodified as original_text; when the
summary call raises with message m, the summary field becomes the
explanatory string Error: m; when the transcription call raises with
message m, the handler returns the generic error payload with message m
instead of a fallback. -/
theorem provider_exception_handling (env : Env) (b : String) (u : Upload) (fs : List String)
    (hw : env.writeOut = .ok) (hr : env.readOut = none) :
    (∀ raw m, env.transcribe (transcriptionRequestFor b u) = .ok raw →
      env.genPolish (polishPrompt raw) = .error m →
      (process_audio env b u fs).1 =
        .success raw (generate_summary env.genSummary raw)) ∧
    (∀ raw m, env.transcribe (transcriptionRequestFor b u) = .ok raw →
      env.genSummary (summaryPrompt (polish_text env.genPolish raw)) = .error m →
      (process_audio env b u fs).1 =
        .success (polish_text env.genPolish raw) ("Error: " ++ m)) ∧
    (∀ m, env.transcribe (transcriptionRequestFor b u) = .error m →
      (process_audio env b u fs).1 = .error m) := by
  refine ⟨?_, ?_, ?_⟩
  · intro raw m ht hm
    simp [process_audio, hw, hr, ht, polish_text, hm]
  · intro raw m ht hm
    simp [process_audio, hw, hr, ht, generate_summary, hm]
  · intro m ht
    simp [process_audio, hw, hr, ht]

/-- Claim C6, witness for the amended statement: with both generation
calls raising, the handler returns the raw transcript with an Error
summary. -/
theorem provider_exception_handling_witness :
    (process_audio envGenFail "/srv/app" ⟨"a.mp3", [1, 2]⟩ []).1 =
      Response.success "raw" "Error: bang" :=
  ((provider_exception_handling envGenFail "/srv/app" ⟨"a.mp3", [1, 2]⟩ []
      rfl rfl).1 "raw" "boom" rfl rfl).trans (by decide)

/-- Claim C7: the transcription request always carries the fixed model
identifier whisper-large-v3, the fixed language hint hi and temperature
zero, independent of the uploaded file. -/
theorem transcription_params_fixed (b : String) (u1 u2 : Upload) :
    (transcriptionRequestFor b u1).model = "whisper-large-v3" ∧
    (transcriptionRequestFor b u1).language = "hi" ∧
    (transcriptionRequestFor b u1).temperature = 0 ∧
    (transcriptionRequestFor b u1).responseFormat = "json" ∧
    (transcriptionRequestFor b u1).model = (transcriptionRequestFor b u2).model ∧
    (transcriptionRequestFor b u1).language = (transcriptionRequestFor b u2).language ∧
    (transcriptionRequestFor b u1).temperature = (transcriptionRequestFor b u2).temperature :=
  ⟨rfl, rfl, rfl, rfl, rfl, rfl, rfl⟩

/-- Claim C8: the temporary path is the fixed temp directory joined with
the client-supplied filename and nothing else, it is the path given to
the transcription provider, and two uploads with the same filename get
the identical path. -/
theorem temp_path_deterministic (b : String) (u1 u2 : Upload)
    (h : u1.filename = u2.filename) :
    tempPath b u1.filename = pathJoin (pathJoin b "temp") u1.filename ∧
    (transcriptionRequestFor b u1).fileName = tempPath b u1.filename ∧
    tempPath b u1.filename = tempPath b u2.filename :=
  ⟨rfl, rfl, by rw [h]⟩

/-- Claim C8, witness at two uploads sharing the filename a.mp3. -/
theorem temp_path_deterministic_witness :
    tempPath "/srv/app" "a.mp3" = pathJoin (pathJoin "/srv/app" "temp") "a.mp3" ∧
    (transcriptionRequestFor "/srv/app" (Upload.mk "a.mp3" [1])).fileName =
      tempPath "/srv/app" "a.mp3" ∧
    tempPath "/srv/app" "a.mp3" = tempPath "/srv/app" "a.mp3" :=
  temp_path_deterministic "/srv/app" (Upload.mk "a.mp3" [1]) (Upload.mk "a.mp3" [2]) rfl

/-- Claim C9: on the success path the value under original_text is the
output of the polish step applied to the raw transcript, and the summary
is computed from that polished text, not from the raw transcript. -/
theorem success_returns_polished (env : Env) (b : String) (u : Upload) (fs : List String)
    (raw : String) (hw : env.writeOut = .ok) (hr : env.readOut = none)
    (ht : env.transcribe (transcriptionRequestFor b u) = .ok raw) :
    (process_audio env b u fs).1 =
      .success (polish_text env.genPolish raw)
        (generate_summary env.genSummary (polish_text env.genPolish raw)) := by
  simp [process_audio, hw, hr, ht]

/-- Claim C9, witness: with polish reply " polished " and summary reply
sum, the response pairs the stripped polished text with that summary. -/
theorem success_returns_polished_witness :
    (process_audio envOkAll "/srv/app" ⟨"a.mp3", [1, 2]⟩ []).1 =
      Response.success "polished" "sum" :=
  (success_returns_polished envOkAll "/srv/app" ⟨"a.mp3", [1, 2]⟩ [] "raw"
      rfl rfl rfl).trans (by decide)

/-- Claim C10: the client-supplied filename is joined without
sanitization, so an absolute filename replaces the temp directory
entirely and a filename with dot-dot components resolves outside the
temp directory. -/
theorem temp_path_escapes_temp_dir :
    tempPath "/srv/app" "/etc/passwd" = "/etc/passwd" ∧
    strBeginsWith (tempPath "/srv/app" "/etc/passwd") "/srv/app/temp/" = false ∧
    tempPath "/srv/app" "../../etc/passwd" = "/srv/app/temp/../../etc/passwd" ∧
    normalizePath (tempPath "/srv/app" "../../etc/passwd") = "/srv/etc/passwd" ∧
    strBeginsWith (normalizePath (tempPath "/srv/app" "../../etc/passwd"))
      "/srv/app/temp/" = false := by
  decide

end VoiceTranscriber
